import Mathlib

/-!
Verification of the bare-metal blinky firmware (src/Core/Src/main.c).

The program is a register-level driver: a startup sequence configures the
clocks, two GPIO pins, the SysTick countdown timer and the EXTI13 falling-edge
interrupt, then idles forever; all behaviour lives in two interrupt handlers.

We embed the machine-visible state as a record holding every memory-mapped
register the program touches, plus the global variable `speed`.  Registers are
32-bit and `speed` is 8-bit; both are modelled as `Nat`, with wrap-around made
explicit (modulo 2^32) exactly where the C code can overflow or underflow.
Each C function becomes a pure state transformer, transcribed statement by
statement from the source.
-/

namespace Blinky

/-- Reload count for the fast blink rate (HIGH_SPEED in main.c). -/
def HIGH_SPEED : Nat := 4000000

/-- Reload count for the medium blink rate (MEDIUM_SPEED in main.c). -/
def MEDIUM_SPEED : Nat := 8000000

/-- Reload count for the slow blink rate (LOW_SPEED in main.c). -/
def LOW_SPEED : Nat := 16000000

/-- All ones in 32 bits: 2^32 - 1. -/
def mask32 : Nat := 4294967295

/-- Bitwise complement truncated to 32 bits, as C's unary tilde on uint32_t. -/
def not32 (x : Nat) : Nat := mask32 ^^^ (x &&& mask32)

/-- The machine-visible state: every memory-mapped register that main.c reads
or writes, plus the global variable speed (a uint8_t). -/
structure MachState where
  RCC_AHB1ENR : Nat
  RCC_APB2ENR : Nat
  SYSTICK_CTRL : Nat
  SYSTICK_RELOAD : Nat
  SYSTICK_CURRENT : Nat
  SYSCFG_EXTICR4 : Nat
  EXTI_IMR : Nat
  EXTI_EMR : Nat
  EXTI_RTSR : Nat
  EXTI_FTSR : Nat
  EXTI_PR : Nat
  NVIC_ISER1 : Nat
  GPIOA_MODER : Nat
  GPIOA_OTYPER : Nat
  GPIOA_OSPEEDER : Nat
  GPIOA_PUPDR : Nat
  GPIOA_ODR : Nat
  GPIOC_MODER : Nat
  GPIOC_PUPDR : Nat
  speed : Nat
deriving DecidableEq, Repr

/-- RCC_Init: enable the GPIOA, GPIOC and SYSCFG peripheral clocks, three
successive read-modify-write OR operations. -/
def RCC_Init (s : MachState) : MachState :=
  let s1 := { s with RCC_AHB1ENR := s.RCC_AHB1ENR ||| (1 <<< 0) }
  let s2 := { s1 with RCC_AHB1ENR := s1.RCC_AHB1ENR ||| (1 <<< 2) }
  { s2 with RCC_APB2ENR := s2.RCC_APB2ENR ||| (1 <<< 14) }

/-- GPIOA_Init: configure PA5 as push-pull low-speed output with no
pull-up/down. -/
def GPIOA_Init (s : MachState) : MachState :=
  let s1 := { s with GPIOA_MODER := s.GPIOA_MODER &&& not32 (3 <<< (5 * 2)) }
  let s2 := { s1 with GPIOA_MODER := s1.GPIOA_MODER ||| (1 <<< (5 * 2)) }
  let s3 := { s2 with GPIOA_OTYPER := s2.GPIOA_OTYPER &&& not32 (1 <<< 5) }
  let s4 := { s3 with GPIOA_OSPEEDER := s3.GPIOA_OSPEEDER &&& not32 (3 <<< (5 * 2)) }
  { s4 with GPIOA_PUPDR := s4.GPIOA_PUPDR &&& not32 (3 <<< (5 * 2)) }

/-- GPIOC_Init: configure PC13 as input with pull-up enabled. -/
def GPIOC_Init (s : MachState) : MachState :=
  let s1 := { s with GPIOC_MODER := s.GPIOC_MODER &&& not32 (3 <<< (13 * 2)) }
  let s2 := { s1 with GPIOC_PUPDR := s1.GPIOC_PUPDR &&& not32 (3 <<< (13 * 2)) }
  { s2 with GPIOC_PUPDR := s2.GPIOC_PUPDR ||| (1 <<< (13 * 2)) }

/-- SysTick_Set_Counter: write ticks - 1 (uint32_t arithmetic, so ticks = 0
wraps to 2^32 - 1) into the reload register and reset the current count. -/
def SysTick_Set_Counter (ticks : Nat) (s : MachState) : MachState :=
  let s1 := { s with SYSTICK_RELOAD := (ticks + mask32) % (mask32 + 1) }
  { s1 with SYSTICK_CURRENT := 0 }

/-- SysTick_Init: program the counter, then select the processor clock,
enable the SysTick interrupt and start the counter. -/
def SysTick_Init (ticks : Nat) (s : MachState) : MachState :=
  let s1 := SysTick_Set_Counter ticks s
  let s2 := { s1 with SYSTICK_CTRL := s1.SYSTICK_CTRL ||| (1 <<< 2) }
  let s3 := { s2 with SYSTICK_CTRL := s2.SYSTICK_CTRL ||| (1 <<< 1) }
  { s3 with SYSTICK_CTRL := s3.SYSTICK_CTRL ||| (1 <<< 0) }

/-- EXTI13_Init: enable IRQ40 at the NVIC, route EXTI13 to port C, mask the
event request, select the falling edge only, and unmask the line. -/
def EXTI13_Init (s : MachState) : MachState :=
  let s1 := { s with NVIC_ISER1 := s.NVIC_ISER1 ||| (1 <<< (40 - 32)) }
  let s2 := { s1 with SYSCFG_EXTICR4 := s1.SYSCFG_EXTICR4 &&& not32 (0xF <<< 4) }
  let s3 := { s2 with SYSCFG_EXTICR4 := s2.SYSCFG_EXTICR4 ||| (0x2 <<< 4) }
  let s4 := { s3 with EXTI_EMR := s3.EXTI_EMR &&& not32 (1 <<< 13) }
  let s5 := { s4 with EXTI_RTSR := s4.EXTI_RTSR &&& not32 (1 <<< 13) }
  let s6 := { s5 with EXTI_FTSR := s5.EXTI_FTSR ||| (1 <<< 13) }
  { s6 with EXTI_IMR := s6.EXTI_IMR ||| (1 <<< 13) }

/-- Names for the five configuration calls the body of main makes, in the
order they appear in the source. -/
inductive InitStep where
  | clockEnable
  | outputPin
  | inputPin
  | tickSource
  | edgeInterrupt
deriving DecidableEq, Repr

/-- Semantics of one configuration call of main. -/
def stepSem : InitStep → MachState → MachState
  | .clockEnable => RCC_Init
  | .outputPin => GPIOA_Init
  | .inputPin => GPIOC_Init
  | .tickSource => SysTick_Init HIGH_SPEED
  | .edgeInterrupt => EXTI13_Init

/-- The body of main before the idle loop: the five calls in source order. -/
def mainInitSteps : List InitStep :=
  [.clockEnable, .outputPin, .inputPin, .tickSource, .edgeInterrupt]

/-- State after the configuration part of main has run. -/
def mainInitState (s : MachState) : MachState :=
  mainInitSteps.foldl (fun t st => stepSem st t) s

/-- The idle loop while (1); of main, with explicit fuel: it consumes all
fuel without ever producing the return value that would follow the loop. -/
def mainIdle : Nat → Option Int
  | 0 => none
  | fuel + 1 => if (1 : Nat) ≠ 0 then mainIdle fuel else some 0

/-- main: run the five configuration calls, then the idle loop; a result is
returned only if the idle loop ever exits. -/
def main (s : MachState) (fuel : Nat) : Option (Int × MachState) :=
  (mainIdle fuel).map (fun r => (r, mainInitState s))

/-- State of the C runtime right before main runs: the static initializer of
the global variable speed (volatile uint8_t speed = 1) has been applied;
hardware registers keep whatever values reset left in them. -/
def startupFrom (s : MachState) : MachState :=
  mainInitState { s with speed := 1 }

/-- SysTick_Handler: toggle PA5 in the output data register. -/
def SysTick_Handler (s : MachState) : MachState :=
  { s with GPIOA_ODR := s.GPIOA_ODR ^^^ (1 <<< 5) }

/-- Value the handler writes back to EXTI_PR: the read value OR 1 <<< 13. -/
def extiPRWrittenValue (s : MachState) : Nat := s.EXTI_PR ||| (1 <<< 13)

/-- Hardware semantics of a write to the EXTI pending register: each bit is
write-1-to-clear, so a pending bit survives only where the written word has a
zero; bits beyond 31 of the written word are truncated by the 32-bit bus. -/
def prWriteHW (pr v : Nat) : Nat := pr &&& not32 v

/-- First statement of EXTI15_10_IRQHandler: the read-modify-write
EXTI_PR |= (1 << 13), under the write-1-to-clear hardware semantics. -/
def clearPending (s : MachState) : MachState :=
  { s with EXTI_PR := prWriteHW s.EXTI_PR (extiPRWrittenValue s) }

/-- Second statement of EXTI15_10_IRQHandler: speed = (speed % 3) + 1. -/
def advanceSpeed (s : MachState) : MachState :=
  { s with speed := (s.speed % 3) + 1 }

/-- Third statement of EXTI15_10_IRQHandler: the switch on speed, calling
SysTick_Set_Counter with the matching count; the default does nothing. -/
def switchReprogram (s : MachState) : MachState :=
  if s.speed = 1 then SysTick_Set_Counter HIGH_SPEED s
  else if s.speed = 2 then SysTick_Set_Counter MEDIUM_SPEED s
  else if s.speed = 3 then SysTick_Set_Counter LOW_SPEED s
  else s

/-- EXTI15_10_IRQHandler: clear the pending flag, advance speed, reprogram
the SysTick counter. -/
def EXTI15_10_IRQHandler (s : MachState) : MachState :=
  switchReprogram (advanceSpeed (clearPending s))

/-- Reload count the switch in EXTI15_10_IRQHandler associates with each
speed value (1 = fast, 2 = medium, 3 = slow); 0 for values the switch does
not match. -/
def speedCount : Nat → Nat
  | 1 => HIGH_SPEED
  | 2 => MEDIUM_SPEED
  | 3 => LOW_SPEED
  | _ => 0

/-- Cyclic successor of a Speed value as the spec states it: Fast to Medium
to Slow and back to Fast, with Fast = 1, Medium = 2, Slow = 3. -/
def specCyclicSucc : Nat → Nat
  | 1 => 2
  | 2 => 3
  | 3 => 1
  | v => v

/-- A concrete all-zero machine state, used to instantiate theorems. -/
def s0 : MachState :=
  ⟨0, 0, 0, 0, 0, 0, 0, 0, 0, 0, 0, 0, 0, 0, 0, 0, 0, 0, 0, 0⟩

end Blinky

namespace Blinky

/-! ## Helper lemmas -/

/-- Bit i of 32 = 2^5 is set exactly at i = 5. -/
lemma testBit_32 (j : Nat) : Nat.testBit 32 j = decide (j = 5) := by
  rcases eq_or_ne j 5 with h | h
  · subst h
    decide
  · have h32 : (32 : Nat) = 2 ^ 5 := by norm_num
    rw [h32, Nat.testBit_two_pow_of_ne (Ne.symm h)]
    simp [h]

/-- Bit i of 8192 = 2^13 is set exactly at i = 13. -/
lemma testBit_8192 (j : Nat) : Nat.testBit 8192 j = decide (j = 13) := by
  rcases eq_or_ne j 13 with h | h
  · subst h
    decide
  · have h13 : (8192 : Nat) = 2 ^ 13 := by norm_num
    rw [h13, Nat.testBit_two_pow_of_ne (Ne.symm h)]
    simp [h]

/-- ORing the same mask in again is absorbed. -/
lemma or_absorb (a b : Nat) : (a ||| b) ||| b = a ||| b := by
  rw [Nat.or_assoc, Nat.or_self]

/-- ORing two masks in again, in the same order, is absorbed. -/
lemma or_or_absorb (a x y : Nat) :
    (((a ||| x) ||| y) ||| x) ||| y = (a ||| x) ||| y := by
  apply Nat.eq_of_testBit_eq
  intro i
  simp only [Nat.testBit_or]
  cases a.testBit i <;> cases x.testBit i <;> cases y.testBit i <;> rfl

/-- The read-modify-write on the write-1-to-clear pending register leaves
every pending bit cleared: the written word has a one wherever the register
did. -/
lemma prWriteHW_rmw_zero (pr : Nat) : prWriteHW pr (pr ||| (1 <<< 13)) = 0 := by
  apply Nat.eq_of_testBit_eq
  intro i
  simp [prWriteHW, not32, mask32, Nat.testBit_and, Nat.testBit_xor, Nat.testBit_or]
  tauto

/-- SysTick_Set_Counter in the well-defined range: reload gets ticks - 1,
the current count gets 0, and no other field changes. -/
lemma set_counter_eq (s : MachState) (ticks : Nat) (h1 : 1 ≤ ticks)
    (h2 : ticks < 4294967296) :
    SysTick_Set_Counter ticks s =
      { s with SYSTICK_RELOAD := ticks - 1, SYSTICK_CURRENT := 0 } := by
  have h : (ticks + mask32) % (mask32 + 1) = ticks - 1 := by
    unfold mask32
    omega
  simp [SysTick_Set_Counter, h]

/-- Speed after one handler invocation, for any starting state. -/
lemma handler_speed (s : MachState) :
    (EXTI15_10_IRQHandler s).speed = s.speed % 3 + 1 := by
  simp only [EXTI15_10_IRQHandler, switchReprogram, advanceSpeed, clearPending,
    SysTick_Set_Counter]
  split_ifs <;> rfl

/-- The pending register is zero after the handler, for any starting state. -/
lemma handler_pr (s : MachState) : (EXTI15_10_IRQHandler s).EXTI_PR = 0 := by
  simp only [EXTI15_10_IRQHandler, switchReprogram, advanceSpeed, clearPending,
    SysTick_Set_Counter]
  split_ifs <;> exact prWriteHW_rmw_zero s.EXTI_PR

/-- SysTick registers after one handler invocation, for any starting state:
the reload register holds the count of the new speed minus one and the
current count is reset. -/
lemma handler_systick (s : MachState) :
    (EXTI15_10_IRQHandler s).SYSTICK_RELOAD = speedCount (s.speed % 3 + 1) - 1 ∧
    (EXTI15_10_IRQHandler s).SYSTICK_CURRENT = 0 := by
  have h3 : s.speed % 3 = 0 ∨ s.speed % 3 = 1 ∨ s.speed % 3 = 2 := by omega
  rcases h3 with h | h | h <;>
    simp [EXTI15_10_IRQHandler, switchReprogram, advanceSpeed, clearPending,
      SysTick_Set_Counter, h, speedCount, HIGH_SPEED, MEDIUM_SPEED, LOW_SPEED,
      mask32]

end Blinky

namespace Blinky

/-! ## Startup lemmas -/

/-- Fields of the state right after startup: speed is 1 and the SysTick
counter was programmed via SysTick_Set_Counter HIGH_SPEED. -/
lemma startup_fields (s : MachState) :
    (startupFrom s).speed = 1 ∧
    (startupFrom s).SYSTICK_RELOAD = HIGH_SPEED - 1 ∧
    (startupFrom s).SYSTICK_CURRENT = 0 := by
  simp [startupFrom, mainInitState, mainInitSteps, stepSem, RCC_Init,
    GPIOA_Init, GPIOC_Init, SysTick_Init, SysTick_Set_Counter, EXTI13_Init,
    HIGH_SPEED, mask32]

end Blinky

namespace Blinky

/-! ## Claim theorems -/

/-- C4: for every ticks at least 1 (and representable in 32 bits),
SysTick_Set_Counter writes ticks - 1 to the reload register, zero to the
current-count register, and changes no other field of the machine state. -/
theorem C4_set_reload (s : MachState) (ticks : Nat) (h1 : 1 ≤ ticks)
    (h2 : ticks < 4294967296) :
    SysTick_Set_Counter ticks s =
      { s with SYSTICK_RELOAD := ticks - 1, SYSTICK_CURRENT := 0 } :=
  set_counter_eq s ticks h1 h2

/-- C4 witness: the theorem instantiated at the concrete state s0 and the
concrete tick count HIGH_SPEED. -/
theorem C4_witness :
    1 ≤ HIGH_SPEED ∧ HIGH_SPEED < 4294967296 ∧
    SysTick_Set_Counter HIGH_SPEED s0 =
      { s0 with SYSTICK_RELOAD := HIGH_SPEED - 1, SYSTICK_CURRENT := 0 } :=
  ⟨by decide, by decide, C4_set_reload s0 HIGH_SPEED (by decide) (by decide)⟩

/-- C5: immediately after the startup sequence, speed is 1 (Fast) and the
tick source has been programmed via SysTick_Set_Counter with the HIGH_SPEED
count: the reload register holds HIGH_SPEED - 1 and the current count is 0. -/
theorem C5_startup_state (s : MachState) :
    (startupFrom s).speed = 1 ∧
    (startupFrom s).SYSTICK_RELOAD = HIGH_SPEED - 1 ∧
    (startupFrom s).SYSTICK_CURRENT = 0 :=
  startup_fields s

/-- C7: the tick handler is exactly a toggle of bit 5 of the output data
register: the whole state update is that single field update, speed and the
reload register are untouched, bit i of the output register flips at i = 5
and is preserved elsewhere, and two invocations restore the original state. -/
theorem C7_tick_handler (s : MachState) :
    SysTick_Handler s = { s with GPIOA_ODR := s.GPIOA_ODR ^^^ (1 <<< 5) } ∧
    (SysTick_Handler s).speed = s.speed ∧
    (SysTick_Handler s).SYSTICK_RELOAD = s.SYSTICK_RELOAD ∧
    (∀ i, ((SysTick_Handler s).GPIOA_ODR).testBit i =
      if i = 5 then !(s.GPIOA_ODR.testBit i) else s.GPIOA_ODR.testBit i) ∧
    SysTick_Handler (SysTick_Handler s) = s := by
  refine ⟨rfl, rfl, rfl, ?_, ?_⟩
  · intro i
    have h : (1 <<< 5 : Nat) = 32 := by decide
    simp only [SysTick_Handler, h]
    rcases eq_or_ne i 5 with h5 | h5 <;> simp [Nat.testBit_xor, testBit_32, h5]
  · cases s
    simp [SysTick_Handler, Nat.xor_assoc]

/-- C8: RCC_Init is idempotent: for every starting state, running it twice
gives the same clock-enable register state as running it once, because
setting an already-set enable bit is a no-op. -/
theorem C8_rcc_idempotent (s : MachState) : RCC_Init (RCC_Init s) = RCC_Init s := by
  cases s
  simp [RCC_Init, or_or_absorb, or_absorb]

end Blinky

namespace Blinky

/-- Invariant relating speed and the SysTick reload register that the code
actually maintains: speed is one of 1, 2, 3 and the reload register holds
the count associated with the current speed, minus one. -/
def SpeedReloadInv (s : MachState) : Prop :=
  (s.speed = 1 ∨ s.speed = 2 ∨ s.speed = 3) ∧
  s.SYSTICK_RELOAD = speedCount s.speed - 1

/-- C1 counterexample: the claim as stated says the reload register equals
the count associated with the current speed; at the concrete reset state s0
the startup sequence leaves speed = 1 whose count is HIGH_SPEED = 4000000,
but the reload register holds 3999999, so the claimed equality is false. -/
theorem C1_counterexample :
    (startupFrom s0).SYSTICK_RELOAD ≠ speedCount (startupFrom s0).speed := by
  decide

/-- C1 amended: after startup and after every Speed-Change Handler
invocation, the reload register equals the count associated with the current
speed minus one (SysTick_Set_Counter stores ticks - 1), and speed is one of
1, 2, 3. -/
theorem C1_amended_invariant :
    (∀ s, SpeedReloadInv (startupFrom s)) ∧
    (∀ s, SpeedReloadInv (EXTI15_10_IRQHandler s)) := by
  constructor
  · intro s
    obtain ⟨h1, h2, h3⟩ := startup_fields s
    exact ⟨Or.inl h1, by rw [h2, h1, speedCount]⟩
  · intro s
    obtain ⟨hr, hc⟩ := handler_systick s
    refine ⟨?_, ?_⟩
    · rw [handler_speed]
      omega
    · rw [hr, handler_speed]

/-- C2: the Speed-Change Handler is the composition, in order, of the
pending-flag clear, the cyclic speed advance, and the switch that reprograms
the tick source; afterwards bit 13 of the pending register is clear, and
from any legal speed the new speed is the cyclic successor with the tick
source programmed to its count. -/
theorem C2_handler_sequence :
    (∀ s, EXTI15_10_IRQHandler s = switchReprogram (advanceSpeed (clearPending s))) ∧
    (∀ s, ((EXTI15_10_IRQHandler s).EXTI_PR).testBit 13 = false) ∧
    (∀ s, (s.speed = 1 ∨ s.speed = 2 ∨ s.speed = 3) →
      (EXTI15_10_IRQHandler s).speed = specCyclicSucc s.speed ∧
      (EXTI15_10_IRQHandler s).SYSTICK_RELOAD = speedCount (specCyclicSucc s.speed) - 1 ∧
      (EXTI15_10_IRQHandler s).SYSTICK_CURRENT = 0) := by
  refine ⟨fun s => rfl, fun s => by rw [handler_pr s]; simp, fun s h => ?_⟩
  obtain ⟨hr, hc⟩ := handler_systick s
  rcases h with h1 | h1 | h1 <;>
    simp [handler_speed, h1, specCyclicSucc, hr, hc]

/-- C2 witness: the handler theorem instantiated at the concrete state with
speed 1 and all registers zero. -/
theorem C2_witness :
    ((({ s0 with speed := 1 } : MachState).speed = 1 ∨
      ({ s0 with speed := 1 } : MachState).speed = 2 ∨
      ({ s0 with speed := 1 } : MachState).speed = 3)) ∧
    ((EXTI15_10_IRQHandler { s0 with speed := 1 }).speed =
      specCyclicSucc ({ s0 with speed := 1 } : MachState).speed ∧
     (EXTI15_10_IRQHandler { s0 with speed := 1 }).SYSTICK_RELOAD =
      speedCount (specCyclicSucc ({ s0 with speed := 1 } : MachState).speed) - 1 ∧
     (EXTI15_10_IRQHandler { s0 with speed := 1 }).SYSTICK_CURRENT = 0) :=
  ⟨by decide, C2_handler_sequence.2.2 { s0 with speed := 1 } (by decide)⟩

/-- Speed after n handler invocations from a state with speed 1. -/
lemma iterate_speed (n : Nat) (x : MachState) (h : x.speed = 1) :
    ((EXTI15_10_IRQHandler)^[n] x).speed = n % 3 + 1 := by
  induction n with
  | zero => simpa using h
  | succ m ih =>
      rw [Function.iterate_succ_apply', handler_speed]
      omega

/-- C3: from the state after startup (speed = Fast = 1), n handler
invocations leave speed advanced by n positions modulo 3 in the cyclic order
1, 2, 3; in particular three invocations return speed to 1. -/
theorem C3_iterate_speed :
    (∀ (n : Nat) (s : MachState),
      ((EXTI15_10_IRQHandler)^[n] (startupFrom s)).speed = n % 3 + 1) ∧
    (∀ s : MachState, ((EXTI15_10_IRQHandler)^[3] (startupFrom s)).speed = 1) := by
  have key : ∀ (n : Nat) (s : MachState),
      ((EXTI15_10_IRQHandler)^[n] (startupFrom s)).speed = n % 3 + 1 :=
    fun n s => iterate_speed n _ (startup_fields s).1
  exact ⟨key, fun s => key 3 s⟩

/-- The idle loop of main never terminates, whatever fuel it is given. -/
lemma mainIdle_none (fuel : Nat) : mainIdle fuel = none := by
  induction fuel with
  | zero => rfl
  | succ m ih => simp [mainIdle, ih]

/-- C6: the body of main performs the five configuration calls exactly once
each, in the fixed order clock enable, output pin, input pin, tick source,
edge interrupt; the edge-interrupt configuration comes strictly after both
the output-pin and tick-source configurations; the folded step list computes
exactly the composition of the five init functions in source order; and main
never returns a value, for any starting state and any fuel. -/
theorem C6_main_order :
    mainInitSteps = [InitStep.clockEnable, InitStep.outputPin, InitStep.inputPin,
      InitStep.tickSource, InitStep.edgeInterrupt] ∧
    (mainInitSteps.count InitStep.clockEnable = 1 ∧
     mainInitSteps.count InitStep.outputPin = 1 ∧
     mainInitSteps.count InitStep.inputPin = 1 ∧
     mainInitSteps.count InitStep.tickSource = 1 ∧
     mainInitSteps.count InitStep.edgeInterrupt = 1) ∧
    (mainInitSteps.indexOf InitStep.outputPin <
       mainInitSteps.indexOf InitStep.edgeInterrupt ∧
     mainInitSteps.indexOf InitStep.tickSource <
       mainInitSteps.indexOf InitStep.edgeInterrupt) ∧
    (∀ s, mainInitState s =
      EXTI13_Init (SysTick_Init HIGH_SPEED (GPIOC_Init (GPIOA_Init (RCC_Init s))))) ∧
    (∀ (s : MachState) (fuel : Nat), main s fuel = none) := by
  refine ⟨rfl, by decide, by decide, fun s => rfl, fun s fuel => ?_⟩
  simp [main, mainIdle_none]

/-- C9: the pending-flag clear is a read-modify-write: the word written back
to EXTI_PR is the read value OR 1 shifted left 13, so it has a one at bit 13
and at every bit that was pending at the read; consequently, under the
write-1-to-clear hardware semantics, the handler leaves the whole pending
register zero, clearing every pending line and preserving none. -/
theorem C9_pr_rmw :
    (∀ s, extiPRWrittenValue s = s.EXTI_PR ||| (1 <<< 13)) ∧
    (∀ (s : MachState) (i : Nat), (extiPRWrittenValue s).testBit i =
      (s.EXTI_PR.testBit i || decide (i = 13))) ∧
    (∀ s, (EXTI15_10_IRQHandler s).EXTI_PR = 0) := by
  refine ⟨fun s => rfl, fun s i => ?_, handler_pr⟩
  have h : (1 <<< 13 : Nat) = 8192 := by decide
  simp [extiPRWrittenValue, h, Nat.testBit_or, testBit_8192]

/-- C10: the update (v % 3) + 1 maps every uint8 value, even one outside
1..3, into the set 1, 2, 3; hence after any handler invocation the switch
matched one of its three cases: speed is one of 1, 2, 3, the reload register
holds the count of the new speed minus one, and the current count is 0. -/
theorem C10_speed_range :
    (∀ v : Nat, v < 256 → (v % 3 + 1 = 1 ∨ v % 3 + 1 = 2 ∨ v % 3 + 1 = 3)) ∧
    (∀ s : MachState,
      ((EXTI15_10_IRQHandler s).speed = 1 ∨ (EXTI15_10_IRQHandler s).speed = 2 ∨
        (EXTI15_10_IRQHandler s).speed = 3) ∧
      (EXTI15_10_IRQHandler s).SYSTICK_RELOAD =
        speedCount ((EXTI15_10_IRQHandler s).speed) - 1 ∧
      (EXTI15_10_IRQHandler s).SYSTICK_CURRENT = 0) := by
  refine ⟨fun v hv => by omega, fun s => ?_⟩
  obtain ⟨hr, hc⟩ := handler_systick s
  refine ⟨?_, ?_, hc⟩
  · rw [handler_speed]
    omega
  · rw [hr, handler_speed]

/-- C10 witness: the range theorem instantiated at the concrete uint8 value
200, which lies outside 1..3 and maps to 3. -/
theorem C10_witness :
    (200 : Nat) < 256 ∧ (200 % 3 + 1 = 1 ∨ 200 % 3 + 1 = 2 ∨ 200 % 3 + 1 = 3) :=
  ⟨by decide, C10_speed_range.1 200 (by decide)⟩

end Blinky
